import Mathlib

/-!
Verification of the interaction/physics core of FractonautCPP
(`src/rendering/FractalGLWidget.cpp`).

The widget state is embedded shallowly: the `double` camera fields
(`zoomCenterX`, `zoomCenterY`, `zoomSize`) and the `QPointF` members
(`m_lastMousePos`, `m_velocity`) are modelled as exact rationals, so the
algebraic structure of every update is captured exactly while floating-point
rounding is idealised away.  Event handlers (`mousePressEvent`,
`mouseMoveEvent`, `mouseReleaseEvent`, `wheelEvent`) and the physics step
(`updatePhysics`, driven by `animate`) are translated line by line from the
source.  Qt-supplied quantities (cursor position, widget width/height, wheel
angle delta) are passed as explicit parameters.
-/

namespace Fractonaut

/-- One camera half of the widget state: the `zoomCenterX/zoomCenterY/zoomSize`
triple that appears once as the current state `m_state` and once as the
target state `m_targetState` in `FractalGLWidget.cpp`. -/
structure Camera where
  zoomCenterX : ℚ
  zoomCenterY : ℚ
  zoomSize : ℚ
deriving DecidableEq, Repr

/-- The interaction-relevant fields of `FractalGLWidget`: current camera
`m_state`, target camera `m_targetState`, drag flag `m_isDragging`, last
pointer position `m_lastMousePos` and pan velocity `m_velocity`. -/
structure WidgetState where
  state : Camera
  targetState : Camera
  isDragging : Bool
  lastMousePosX : ℚ
  lastMousePosY : ℚ
  velocityX : ℚ
  velocityY : ℚ
deriving DecidableEq, Repr

/-- Default camera from the in-class initialisers in `FractalGLWidget.h`:
center `(-0.5, 0.0)`, size `3.0`. -/
def initialCamera : Camera :=
  { zoomCenterX := -1/2, zoomCenterY := 0, zoomSize := 3 }

/-- Widget state right after the constructor: `m_state = State()`,
`m_targetState = m_state`, `m_isDragging = false`, `m_velocity = (0, 0)`. -/
def initialState : WidgetState :=
  { state := initialCamera
    targetState := initialCamera
    isDragging := false
    lastMousePosX := 0
    lastMousePosY := 0
    velocityX := 0
    velocityY := 0 }

/-- Mouse buttons as far as the handlers inspect them (`Qt::LeftButton`
versus anything else). -/
inductive MouseButton where
  | left
  | right
  | middle
deriving DecidableEq, Repr

/-- `FractalGLWidget::mousePressEvent`: on the left button, start dragging,
record the pointer position, zero the velocity and sync the target center to
the current center; any other button does nothing. -/
def mousePressEvent (button : MouseButton) (posX posY : ℚ) (s : WidgetState) :
    WidgetState :=
  if button = MouseButton.left then
    { s with
      isDragging := true
      lastMousePosX := posX
      lastMousePosY := posY
      velocityX := 0
      velocityY := 0
      targetState :=
        { s.targetState with
          zoomCenterX := s.state.zoomCenterX
          zoomCenterY := s.state.zoomCenterY } }
  else s

/-- `FractalGLWidget::mouseMoveEvent`: while dragging, convert the pixel
delta to fractal units via `m_state.zoomSize / height()`, move the current
center directly, copy it into the target center, record the delta as the
velocity, and remember the pointer position.  Not dragging: no-op. -/
def mouseMoveEvent (posX posY height : ℚ) (s : WidgetState) : WidgetState :=
  if s.isDragging then
    let deltaX := posX - s.lastMousePosX
    let deltaY := posY - s.lastMousePosY
    let pixelToFractal := s.state.zoomSize / height
    let newCenterX := s.state.zoomCenterX - deltaX * pixelToFractal
    let newCenterY := s.state.zoomCenterY + deltaY * pixelToFractal
    { s with
      state := { s.state with zoomCenterX := newCenterX, zoomCenterY := newCenterY }
      targetState :=
        { s.targetState with zoomCenterX := newCenterX, zoomCenterY := newCenterY }
      velocityX := deltaX
      velocityY := deltaY
      lastMousePosX := posX
      lastMousePosY := posY }
  else s

/-- `FractalGLWidget::mouseReleaseEvent`: the left button clears the drag
flag; any other button does nothing. -/
def mouseReleaseEvent (button : MouseButton) (s : WidgetState) : WidgetState :=
  if button = MouseButton.left then { s with isDragging := false } else s

/-- `FractalGLWidget::wheelEvent`: zoom factor `0.92` when scrolling up
(zoom in) and `1.08` otherwise; compute the fractal-space point under the
cursor from the pre-zoom target state, scale the target size, and recompute
the target center so the cursor point maps back to the same pixel. -/
def wheelEvent (angleDeltaY : ℤ) (posX posY width height : ℚ)
    (s : WidgetState) : WidgetState :=
  let zoomFactor : ℚ := if 0 < angleDeltaY then 23/25 else 27/25
  let relX := posX - width / 2
  let relY := posY - height / 2
  let pixelToFractal := s.targetState.zoomSize / height
  let mouseFractalX := s.targetState.zoomCenterX + relX * pixelToFractal
  let mouseFractalY := s.targetState.zoomCenterY - relY * pixelToFractal
  let newSize := s.targetState.zoomSize * zoomFactor
  let newPixelToFractal := newSize / height
  { s with
    targetState :=
      { s.targetState with
        zoomSize := newSize
        zoomCenterX := mouseFractalX - relX * newPixelToFractal
        zoomCenterY := mouseFractalY + relY * newPixelToFractal } }

/-- `QPointF::manhattanLength`: `|x| + |y|`, used by `updatePhysics` for the
momentum threshold tests. -/
def manhattanLength (x y : ℚ) : ℚ := |x| + |y|

/-- `FractalGLWidget::updatePhysics`: exponential smoothing of the current
camera toward the target camera with constant factor `0.08` (the `deltaTime`
argument is not used by the body), followed by momentum panning: when not
dragging and the velocity's manhattan length exceeds `0.1`, the velocity
(converted by `m_state.zoomSize / height()`) is applied to both the current
and the target center, the velocity is scaled by `0.92`, and it is reset to
`(0, 0)` if its manhattan length dropped strictly below `0.1`. -/
def updatePhysics (deltaTime height : ℚ) (s : WidgetState) : WidgetState :=
  let smoothFactor : ℚ := 2/25
  let s1 : WidgetState :=
    { s with
      state :=
        { s.state with
          zoomSize :=
            s.state.zoomSize + (s.targetState.zoomSize - s.state.zoomSize) * smoothFactor
          zoomCenterX :=
            s.state.zoomCenterX +
              (s.targetState.zoomCenterX - s.state.zoomCenterX) * smoothFactor
          zoomCenterY :=
            s.state.zoomCenterY +
              (s.targetState.zoomCenterY - s.state.zoomCenterY) * smoothFactor } }
  if s1.isDragging = false ∧ 1/10 < manhattanLength s1.velocityX s1.velocityY then
    let pixelToFractal := s1.state.zoomSize / height
    let dx := s1.velocityX * pixelToFractal
    let dy := s1.velocityY * pixelToFractal
    let s2 : WidgetState :=
      { s1 with
        state :=
          { s1.state with
            zoomCenterX := s1.state.zoomCenterX - dx
            zoomCenterY := s1.state.zoomCenterY + dy }
        targetState :=
          { s1.targetState with
            zoomCenterX := s1.targetState.zoomCenterX - dx
            zoomCenterY := s1.targetState.zoomCenterY + dy }
        velocityX := s1.velocityX * (23/25)
        velocityY := s1.velocityY * (23/25) }
    if manhattanLength s2.velocityX s2.velocityY < 1/10 then
      { s2 with velocityX := 0, velocityY := 0 }
    else s2
  else s1

/-- `FractalGLWidget::animate`: one timer tick, always calling
`updatePhysics(0.016)` with the fixed nominal time step. -/
def animate (height : ℚ) (s : WidgetState) : WidgetState :=
  updatePhysics (2/125) height s

/-- `n` timer ticks in a row. -/
def animateN (height : ℚ) (n : ℕ) (s : WidgetState) : WidgetState :=
  (animate height)^[n] s

/-- The fractal-space x-coordinate that a cursor pixel maps to under a
camera, as computed in `wheelEvent` (lines 311–315):
`centerX + (posX - width/2) * (zoomSize / height)`. -/
def cursorToFractalX (posX width height : ℚ) (c : Camera) : ℚ :=
  c.zoomCenterX + (posX - width / 2) * (c.zoomSize / height)

/-- The fractal-space y-coordinate that a cursor pixel maps to under a
camera, as computed in `wheelEvent` (lines 312–316):
`centerY - (posY - height/2) * (zoomSize / height)`. -/
def cursorToFractalY (posY height : ℚ) (c : Camera) : ℚ :=
  c.zoomCenterY - (posY - height / 2) * (c.zoomSize / height)

/-- The §8 drag scenario: default camera (`size = 3.0`) on both halves, a
drag in progress, last pointer at the center of an 800×600 viewport. -/
def dragScenarioState : WidgetState :=
  { state := initialCamera
    targetState := initialCamera
    isDragging := true
    lastMousePosX := 400
    lastMousePosY := 300
    velocityX := 0
    velocityY := 0 }

/-- A state whose current camera differs from its target camera in the size
component only, at rest (no drag, zero velocity). -/
def splitTickState : WidgetState :=
  { state := { zoomCenterX := 0, zoomCenterY := 0, zoomSize := 1 }
    targetState := { zoomCenterX := 0, zoomCenterY := 0, zoomSize := 2 }
    isDragging := false
    lastMousePosX := 0
    lastMousePosY := 0
    velocityX := 0
    velocityY := 0 }

/-- A state just after a drag release: not dragging, with residual
velocity `(1, 0)` and both cameras at the defaults. -/
def momentumState : WidgetState :=
  { state := initialCamera
    targetState := initialCamera
    isDragging := false
    lastMousePosX := 0
    lastMousePosY := 0
    velocityX := 1
    velocityY := 0 }

/-- `n` zoom-out wheel events in a row (negative `angleDelta().y()`). -/
def zoomOutN (posX posY width height : ℚ) (n : ℕ) (s : WidgetState) :
    WidgetState :=
  (wheelEvent (-120) posX posY width height)^[n] s

/-- The current zoom size right after the smoothing step of
`updatePhysics` — the value `m_state.zoomSize` holds when the momentum
block reads it for its `pixelToFractal` conversion. -/
def smoothedSize (s : WidgetState) : ℚ :=
  s.state.zoomSize + (s.targetState.zoomSize - s.state.zoomSize) * (2/25)

/-! ### Structural lemmas about the handlers and the physics step -/

theorem mousePressEvent_state (button : MouseButton) (posX posY : ℚ)
    (s : WidgetState) : (mousePressEvent button posX posY s).state = s.state := by
  unfold mousePressEvent; split <;> rfl

theorem mouseReleaseEvent_state (button : MouseButton) (s : WidgetState) :
    (mouseReleaseEvent button s).state = s.state := by
  unfold mouseReleaseEvent; split <;> rfl

theorem wheelEvent_state (angleDeltaY : ℤ) (posX posY width height : ℚ)
    (s : WidgetState) :
    (wheelEvent angleDeltaY posX posY width height s).state = s.state := rfl

theorem mouseMoveEvent_state_zoomSize (posX posY height : ℚ) (s : WidgetState) :
    (mouseMoveEvent posX posY height s).state.zoomSize = s.state.zoomSize := by
  unfold mouseMoveEvent; split <;> rfl

theorem mouseMoveEvent_targetState_zoomSize (posX posY height : ℚ)
    (s : WidgetState) :
    (mouseMoveEvent posX posY height s).targetState.zoomSize =
      s.targetState.zoomSize := by
  unfold mouseMoveEvent; split <;> rfl

theorem mousePressEvent_targetState_zoomSize (button : MouseButton)
    (posX posY : ℚ) (s : WidgetState) :
    (mousePressEvent button posX posY s).targetState.zoomSize =
      s.targetState.zoomSize := by
  unfold mousePressEvent; split <;> rfl

theorem mouseReleaseEvent_targetState (button : MouseButton) (s : WidgetState) :
    (mouseReleaseEvent button s).targetState = s.targetState := by
  unfold mouseReleaseEvent; split <;> rfl

theorem wheelEvent_targetState_zoomSize (angleDeltaY : ℤ)
    (posX posY width height : ℚ) (s : WidgetState) :
    (wheelEvent angleDeltaY posX posY width height s).targetState.zoomSize =
      s.targetState.zoomSize * (if 0 < angleDeltaY then (23/25 : ℚ) else 27/25) := by
  unfold wheelEvent; split <;> rfl

theorem updatePhysics_targetState_zoomSize (deltaTime height : ℚ)
    (s : WidgetState) :
    (updatePhysics deltaTime height s).targetState.zoomSize =
      s.targetState.zoomSize := by
  unfold updatePhysics; dsimp only; split
  · split <;> rfl
  · rfl

theorem updatePhysics_state_zoomSize (deltaTime height : ℚ) (s : WidgetState) :
    (updatePhysics deltaTime height s).state.zoomSize =
      s.state.zoomSize + (s.targetState.zoomSize - s.state.zoomSize) * (2/25) := by
  unfold updatePhysics; dsimp only; split
  · split <;> rfl
  · rfl

theorem updatePhysics_isDragging (deltaTime height : ℚ) (s : WidgetState) :
    (updatePhysics deltaTime height s).isDragging = s.isDragging := by
  unfold updatePhysics; dsimp only; split
  · split <;> rfl
  · rfl

theorem zoomOutN_targetState_zoomSize (posX posY width height : ℚ) (n : ℕ)
    (s : WidgetState) :
    (zoomOutN posX posY width height n s).targetState.zoomSize =
      s.targetState.zoomSize * (27/25)^n := by
  induction n with
  | zero => simp [zoomOutN]
  | succ n ih =>
    rw [zoomOutN, Function.iterate_succ_apply', ← zoomOutN,
      wheelEvent_targetState_zoomSize, ih]
    norm_num [pow_succ]
    ring

theorem updatePhysics_small_velocity (deltaTime height : ℚ) (s : WidgetState)
    (hm : manhattanLength s.velocityX s.velocityY ≤ 1/10) :
    updatePhysics deltaTime height s =
      { s with
        state :=
          { zoomCenterX :=
              s.state.zoomCenterX +
                (s.targetState.zoomCenterX - s.state.zoomCenterX) * (2/25)
            zoomCenterY :=
              s.state.zoomCenterY +
                (s.targetState.zoomCenterY - s.state.zoomCenterY) * (2/25)
            zoomSize :=
              s.state.zoomSize +
                (s.targetState.zoomSize - s.state.zoomSize) * (2/25) } } := by
  unfold updatePhysics; dsimp only
  rw [if_neg fun h => absurd h.2 (not_lt.mpr hm)]

theorem animateN_small_velocity (height : ℚ) (s : WidgetState)
    (hm : manhattanLength s.velocityX s.velocityY ≤ 1/10) (k : ℕ) :
    (animateN height k s).velocityX = s.velocityX ∧
      (animateN height k s).velocityY = s.velocityY ∧
      (animateN height k s).targetState = s.targetState := by
  induction k with
  | zero => exact ⟨rfl, rfl, rfl⟩
  | succ k ih =>
    obtain ⟨hx, hy, ht⟩ := ih
    rw [animateN, Function.iterate_succ_apply', ← animateN, animate,
      updatePhysics_small_velocity _ _ _ (by rw [hx, hy]; exact hm)]
    exact ⟨hx, hy, ht⟩

theorem animateN_velocity_zero (height : ℚ) (s : WidgetState)
    (hvx : s.velocityX = 0) (hvy : s.velocityY = 0) (n : ℕ) :
    (animateN height n s).targetState = s.targetState ∧
      (animateN height n s).velocityX = 0 ∧
      (animateN height n s).velocityY = 0 ∧
      s.targetState.zoomCenterX - (animateN height n s).state.zoomCenterX =
        (23/25)^n * (s.targetState.zoomCenterX - s.state.zoomCenterX) ∧
      s.targetState.zoomCenterY - (animateN height n s).state.zoomCenterY =
        (23/25)^n * (s.targetState.zoomCenterY - s.state.zoomCenterY) ∧
      s.targetState.zoomSize - (animateN height n s).state.zoomSize =
        (23/25)^n * (s.targetState.zoomSize - s.state.zoomSize) := by
  induction n with
  | zero => simp [animateN, hvx, hvy]
  | succ n ih =>
    obtain ⟨ht, hx, hy, gx, gy, gs⟩ := ih
    rw [animateN, Function.iterate_succ_apply', ← animateN, animate,
      updatePhysics_small_velocity _ _ _ (by rw [hx, hy]; norm_num [manhattanLength])]
    refine ⟨ht, hx, hy, ?_, ?_, ?_⟩
    · show s.targetState.zoomCenterX -
          ((animateN height n s).state.zoomCenterX +
            ((animateN height n s).targetState.zoomCenterX -
              (animateN height n s).state.zoomCenterX) * (2/25)) = _
      rw [ht]
      linear_combination (23/25 : ℚ) * gx
    · show s.targetState.zoomCenterY -
          ((animateN height n s).state.zoomCenterY +
            ((animateN height n s).targetState.zoomCenterY -
              (animateN height n s).state.zoomCenterY) * (2/25)) = _
      rw [ht]
      linear_combination (23/25 : ℚ) * gy
    · show s.targetState.zoomSize -
          ((animateN height n s).state.zoomSize +
            ((animateN height n s).targetState.zoomSize -
              (animateN height n s).state.zoomSize) * (2/25)) = _
      rw [ht]
      linear_combination (23/25 : ℚ) * gs

theorem updatePhysics_momentum_active (deltaTime height : ℚ) (s : WidgetState)
    (hd : s.isDragging = false)
    (hm : 1/10 < manhattanLength s.velocityX s.velocityY) :
    (updatePhysics deltaTime height s).targetState.zoomCenterX =
        s.targetState.zoomCenterX - s.velocityX * (smoothedSize s / height) ∧
      (updatePhysics deltaTime height s).targetState.zoomCenterY =
        s.targetState.zoomCenterY + s.velocityY * (smoothedSize s / height) ∧
      (updatePhysics deltaTime height s).state.zoomCenterX =
        (s.state.zoomCenterX +
            (s.targetState.zoomCenterX - s.state.zoomCenterX) * (2/25)) -
          s.velocityX * (smoothedSize s / height) ∧
      (updatePhysics deltaTime height s).state.zoomCenterY =
        (s.state.zoomCenterY +
            (s.targetState.zoomCenterY - s.state.zoomCenterY) * (2/25)) +
          s.velocityY * (smoothedSize s / height) ∧
      (updatePhysics deltaTime height s).velocityX =
        (if manhattanLength (s.velocityX * (23/25)) (s.velocityY * (23/25)) < 1/10
          then 0 else s.velocityX * (23/25)) ∧
      (updatePhysics deltaTime height s).velocityY =
        (if manhattanLength (s.velocityX * (23/25)) (s.velocityY * (23/25)) < 1/10
          then 0 else s.velocityY * (23/25)) := by
  unfold updatePhysics smoothedSize; dsimp only
  rw [if_pos ⟨hd, hm⟩]
  split <;> exact ⟨rfl, rfl, rfl, rfl, rfl, rfl⟩

theorem manhattanLength_scale (x y : ℚ) :
    manhattanLength (x * (23/25)) (y * (23/25)) =
      (23/25) * manhattanLength x y := by
  unfold manhattanLength
  rw [abs_mul, abs_mul, abs_of_pos (show (0:ℚ) < 23/25 by norm_num)]
  ring

theorem animate_manhattan_le (height : ℚ) (s : WidgetState)
    (hd : s.isDragging = false) :
    manhattanLength (animate height s).velocityX (animate height s).velocityY ≤
      max (1/10) ((23/25) * manhattanLength s.velocityX s.velocityY) := by
  rcases le_or_lt (manhattanLength s.velocityX s.velocityY) (1/10) with hm | hm
  · rw [animate, updatePhysics_small_velocity _ _ _ hm]
    exact le_max_of_le_left hm
  · obtain ⟨-, -, -, -, hvx, hvy⟩ :=
      updatePhysics_momentum_active (2/125) height s hd hm
    rw [animate, hvx, hvy]
    split_ifs with h
    · exact le_max_of_le_left (by norm_num [manhattanLength])
    · rw [manhattanLength_scale]
      exact le_max_of_le_right le_rfl

theorem animateN_isDragging (height : ℚ) (n : ℕ) (s : WidgetState) :
    (animateN height n s).isDragging = s.isDragging := by
  induction n with
  | zero => rfl
  | succ n ih =>
    rw [animateN, Function.iterate_succ_apply', ← animateN, animate,
      updatePhysics_isDragging, ih]

theorem animateN_manhattan_bound (height : ℚ) (s : WidgetState)
    (hd : s.isDragging = false) (n : ℕ) :
    manhattanLength (animateN height n s).velocityX
        (animateN height n s).velocityY ≤
      max (1/10) ((23/25)^n * manhattanLength s.velocityX s.velocityY) := by
  induction n with
  | zero => simp [animateN]
  | succ n ih =>
    rw [animateN, Function.iterate_succ_apply', ← animateN]
    have hstep := animate_manhattan_le height (animateN height n s)
      (by rw [animateN_isDragging]; exact hd)
    refine hstep.trans ?_
    have h2 : (23/25 : ℚ) * manhattanLength (animateN height n s).velocityX
          (animateN height n s).velocityY ≤
        max ((23/25) * (1/10))
          ((23/25) * ((23/25)^n * manhattanLength s.velocityX s.velocityY)) := by
      rw [← mul_max_of_nonneg _ _ (show (0:ℚ) ≤ 23/25 by norm_num)]
      exact mul_le_mul_of_nonneg_left ih (by norm_num)
    refine max_le (le_max_left _ _) (h2.trans (max_le ?_ ?_))
    · exact le_max_of_le_left (by norm_num)
    · exact le_max_of_le_right (le_of_eq (by ring))

theorem animateN_eventually_small (height : ℚ) (s : WidgetState)
    (hd : s.isDragging = false) :
    ∃ N : ℕ, manhattanLength (animateN height N s).velocityX
        (animateN height N s).velocityY ≤ 1/10 := by
  rcases le_or_lt (manhattanLength s.velocityX s.velocityY) (1/10) with hm | hm
  · exact ⟨0, hm⟩
  · have hpos : 0 < manhattanLength s.velocityX s.velocityY :=
      lt_trans (by norm_num) hm
    obtain ⟨N, hN⟩ := exists_pow_lt_of_lt_one
      (show 0 < (1/10) / manhattanLength s.velocityX s.velocityY by positivity)
      (show (23/25 : ℚ) < 1 by norm_num)
    refine ⟨N, (animateN_manhattan_bound height s hd N).trans ?_⟩
    exact max_le le_rfl ((lt_div_iff hpos).mp hN).le

theorem animateN_frozen_after (height : ℚ) (s : WidgetState) (N : ℕ)
    (hsm : manhattanLength (animateN height N s).velocityX
        (animateN height N s).velocityY ≤ 1/10)
    (n : ℕ) (hn : N ≤ n) :
    (animateN height n s).velocityX = (animateN height N s).velocityX ∧
      (animateN height n s).velocityY = (animateN height N s).velocityY ∧
      (animateN height n s).targetState = (animateN height N s).targetState := by
  obtain ⟨k, rfl⟩ := Nat.exists_eq_add_of_le hn
  have hsplit : animateN height (N + k) s =
      animateN height k (animateN height N s) := by
    rw [animateN, animateN, animateN, add_comm, Function.iterate_add_apply]
  rw [hsplit]
  exact animateN_small_velocity height _ hsm k

theorem tendsto_of_geom_gap (t d : ℚ) (f : ℕ → ℚ)
    (hf : ∀ n, t - f n = (23/25)^n * d) :
    Filter.Tendsto (fun n => (f n : ℝ)) Filter.atTop (nhds (t : ℝ)) := by
  have h0 : Filter.Tendsto (fun n : ℕ => ((23/25 : ℝ))^n * (d : ℝ))
      Filter.atTop (nhds 0) := by
    simpa using
      (tendsto_pow_atTop_nhds_zero_of_lt_one
        (by norm_num : (0:ℝ) ≤ 23/25) (by norm_num : (23/25 : ℝ) < 1)).mul_const (d : ℝ)
  have h1 : Filter.Tendsto (fun n : ℕ => (t : ℝ) - ((23/25 : ℝ))^n * (d : ℝ))
      Filter.atTop (nhds ((t : ℝ) - 0)) := tendsto_const_nhds.sub h0
  rw [sub_zero] at h1
  refine h1.congr fun n => ?_
  have h2 : (f n : ℚ) = t - (23/25)^n * d := by linarith [hf n]
  rw [h2]; push_cast; ring

/-! ### Claim theorems -/

/-- C2: the wheel handler preserves the focal point exactly: the
fractal-space point under the cursor computed from the post-zoom target
state equals the one computed from the pre-zoom target state, for any
cursor position, viewport with positive height and either scroll
direction; and a zoom-in scroll at the exact viewport center leaves the
target center unchanged while the target size is multiplied by `0.92`. -/
theorem wheel_preserves_focal_point (angleDeltaY : ℤ) (posX posY width height : ℚ)
    (s : WidgetState) (hh : 0 < height) :
    (cursorToFractalX posX width height
        (wheelEvent angleDeltaY posX posY width height s).targetState =
      cursorToFractalX posX width height s.targetState ∧
     cursorToFractalY posY height
        (wheelEvent angleDeltaY posX posY width height s).targetState =
      cursorToFractalY posY height s.targetState) ∧
    (posX = width / 2 → posY = height / 2 → 0 < angleDeltaY →
      (wheelEvent angleDeltaY posX posY width height s).targetState.zoomCenterX =
          s.targetState.zoomCenterX ∧
        (wheelEvent angleDeltaY posX posY width height s).targetState.zoomCenterY =
          s.targetState.zoomCenterY ∧
        (wheelEvent angleDeltaY posX posY width height s).targetState.zoomSize =
          (23/25) * s.targetState.zoomSize) := by
  refine ⟨⟨?_, ?_⟩, fun hx hy ha => ?_⟩
  · simp only [wheelEvent, cursorToFractalX]; ring
  · simp only [wheelEvent, cursorToFractalY]; ring
  · subst hx; subst hy
    simp only [wheelEvent, if_pos ha]
    refine ⟨by ring, by ring, by ring⟩

theorem wheel_preserves_focal_point_witness :
    (0:ℚ) < 600 ∧
      ((cursorToFractalX 400 800 600
            (wheelEvent 120 400 300 800 600 initialState).targetState =
          cursorToFractalX 400 800 600 initialState.targetState ∧
        cursorToFractalY 300 600
            (wheelEvent 120 400 300 800 600 initialState).targetState =
          cursorToFractalY 300 600 initialState.targetState) ∧
      ((400:ℚ) = 800 / 2 → (300:ℚ) = 600 / 2 → (0:ℤ) < 120 →
        (wheelEvent 120 400 300 800 600 initialState).targetState.zoomCenterX =
            initialState.targetState.zoomCenterX ∧
          (wheelEvent 120 400 300 800 600 initialState).targetState.zoomCenterY =
            initialState.targetState.zoomCenterY ∧
          (wheelEvent 120 400 300 800 600 initialState).targetState.zoomSize =
            (23/25) * initialState.targetState.zoomSize)) :=
  ⟨by norm_num, wheel_preserves_focal_point 120 400 300 800 600 initialState (by norm_num)⟩

/-- C3 (counterexample): with the target held fixed (zero velocity) and
`current ≠ target` (the sizes differ), a tick does not strictly reduce
`|target.centerX − current.centerX|`: that gap is `0` and stays `0`. -/
theorem lerp_strict_decrease_counterexample :
    splitTickState.state ≠ splitTickState.targetState ∧
      splitTickState.velocityX = 0 ∧ splitTickState.velocityY = 0 ∧
      ¬ (|splitTickState.targetState.zoomCenterX -
            (animate 600 splitTickState).state.zoomCenterX| <
          |splitTickState.targetState.zoomCenterX -
            splitTickState.state.zoomCenterX|) := by
  refine ⟨by simp [splitTickState], rfl, rfl, ?_⟩
  rw [animate, updatePhysics_small_velocity _ _ _
    (by norm_num [splitTickState, manhattanLength])]
  norm_num [splitTickState]

/-- C3 (amended): with the target held fixed (zero velocity), each tick
multiplies every component's signed gap `target.X − current.X` by exactly
`23/25`: the gap strictly shrinks in absolute value whenever the component
differs from its target (a component already at its target stays there),
the current value never overshoots past the target, and each component of
the current state converges to the target as the tick count tends to
infinity. -/
theorem lerp_monotone_convergence (height : ℚ) (s : WidgetState)
    (hvx : s.velocityX = 0) (hvy : s.velocityY = 0) :
    (animate height s).targetState = s.targetState ∧
    (s.targetState.zoomCenterX - (animate height s).state.zoomCenterX =
        (23/25) * (s.targetState.zoomCenterX - s.state.zoomCenterX) ∧
      s.targetState.zoomCenterY - (animate height s).state.zoomCenterY =
        (23/25) * (s.targetState.zoomCenterY - s.state.zoomCenterY) ∧
      s.targetState.zoomSize - (animate height s).state.zoomSize =
        (23/25) * (s.targetState.zoomSize - s.state.zoomSize)) ∧
    ((s.state.zoomCenterX ≠ s.targetState.zoomCenterX →
        |s.targetState.zoomCenterX - (animate height s).state.zoomCenterX| <
          |s.targetState.zoomCenterX - s.state.zoomCenterX|) ∧
      (s.state.zoomCenterY ≠ s.targetState.zoomCenterY →
        |s.targetState.zoomCenterY - (animate height s).state.zoomCenterY| <
          |s.targetState.zoomCenterY - s.state.zoomCenterY|) ∧
      (s.state.zoomSize ≠ s.targetState.zoomSize →
        |s.targetState.zoomSize - (animate height s).state.zoomSize| <
          |s.targetState.zoomSize - s.state.zoomSize|)) ∧
    (Filter.Tendsto (fun n => ((animateN height n s).state.zoomCenterX : ℝ))
        Filter.atTop (nhds (s.targetState.zoomCenterX : ℝ)) ∧
      Filter.Tendsto (fun n => ((animateN height n s).state.zoomCenterY : ℝ))
        Filter.atTop (nhds (s.targetState.zoomCenterY : ℝ)) ∧
      Filter.Tendsto (fun n => ((animateN height n s).state.zoomSize : ℝ))
        Filter.atTop (nhds (s.targetState.zoomSize : ℝ))) := by
  have hstep := animateN_velocity_zero height s hvx hvy 1
  have hone : animateN height 1 s = animate height s := by
    rw [animateN, Function.iterate_one]
  rw [hone] at hstep
  obtain ⟨ht, -, -, gx, gy, gs⟩ := hstep
  rw [pow_one] at gx gy gs
  refine ⟨ht, ⟨gx, gy, gs⟩, ⟨?_, ?_, ?_⟩, ?_, ?_, ?_⟩
  · intro hne
    rw [gx, abs_mul]
    have : |s.targetState.zoomCenterX - s.state.zoomCenterX| > 0 :=
      abs_pos.mpr (sub_ne_zero.mpr fun h => hne h.symm)
    rw [abs_of_pos (show (0:ℚ) < 23/25 by norm_num)]
    nlinarith
  · intro hne
    rw [gy, abs_mul]
    have : |s.targetState.zoomCenterY - s.state.zoomCenterY| > 0 :=
      abs_pos.mpr (sub_ne_zero.mpr fun h => hne h.symm)
    rw [abs_of_pos (show (0:ℚ) < 23/25 by norm_num)]
    nlinarith
  · intro hne
    rw [gs, abs_mul]
    have : |s.targetState.zoomSize - s.state.zoomSize| > 0 :=
      abs_pos.mpr (sub_ne_zero.mpr fun h => hne h.symm)
    rw [abs_of_pos (show (0:ℚ) < 23/25 by norm_num)]
    nlinarith
  · exact tendsto_of_geom_gap _ _ _
      (fun n => (animateN_velocity_zero height s hvx hvy n).2.2.2.1)
  · exact tendsto_of_geom_gap _ _ _
      (fun n => (animateN_velocity_zero height s hvx hvy n).2.2.2.2.1)
  · exact tendsto_of_geom_gap _ _ _
      (fun n => (animateN_velocity_zero height s hvx hvy n).2.2.2.2.2)

theorem lerp_monotone_convergence_witness :
    (splitTickState.velocityX = 0 ∧ splitTickState.velocityY = 0) ∧
      ((animate 600 splitTickState).targetState = splitTickState.targetState ∧
      (splitTickState.targetState.zoomCenterX -
            (animate 600 splitTickState).state.zoomCenterX =
          (23/25) * (splitTickState.targetState.zoomCenterX -
            splitTickState.state.zoomCenterX) ∧
        splitTickState.targetState.zoomCenterY -
            (animate 600 splitTickState).state.zoomCenterY =
          (23/25) * (splitTickState.targetState.zoomCenterY -
            splitTickState.state.zoomCenterY) ∧
        splitTickState.targetState.zoomSize -
            (animate 600 splitTickState).state.zoomSize =
          (23/25) * (splitTickState.targetState.zoomSize -
            splitTickState.state.zoomSize)) ∧
      ((splitTickState.state.zoomCenterX ≠ splitTickState.targetState.zoomCenterX →
          |splitTickState.targetState.zoomCenterX -
              (animate 600 splitTickState).state.zoomCenterX| <
            |splitTickState.targetState.zoomCenterX -
              splitTickState.state.zoomCenterX|) ∧
        (splitTickState.state.zoomCenterY ≠ splitTickState.targetState.zoomCenterY →
          |splitTickState.targetState.zoomCenterY -
              (animate 600 splitTickState).state.zoomCenterY| <
            |splitTickState.targetState.zoomCenterY -
              splitTickState.state.zoomCenterY|) ∧
        (splitTickState.state.zoomSize ≠ splitTickState.targetState.zoomSize →
          |splitTickState.targetState.zoomSize -
              (animate 600 splitTickState).state.zoomSize| <
            |splitTickState.targetState.zoomSize -
              splitTickState.state.zoomSize|)) ∧
      (Filter.Tendsto
          (fun n => ((animateN 600 n splitTickState).state.zoomCenterX : ℝ))
          Filter.atTop (nhds (splitTickState.targetState.zoomCenterX : ℝ)) ∧
        Filter.Tendsto
          (fun n => ((animateN 600 n splitTickState).state.zoomCenterY : ℝ))
          Filter.atTop (nhds (splitTickState.targetState.zoomCenterY : ℝ)) ∧
        Filter.Tendsto
          (fun n => ((animateN 600 n splitTickState).state.zoomSize : ℝ))
          Filter.atTop (nhds (splitTickState.targetState.zoomSize : ℝ)))) :=
  ⟨⟨rfl, rfl⟩, lerp_monotone_convergence 600 splitTickState rfl rfl⟩

/-- C4 (counterexample): the momentum phase does not leave the current
center alone: one tick after a drag release with velocity `(1, 0)` (and
current = target, so the smoothing step contributes nothing) moves
`current.centerX`, contradicting "target.center only (not
current.center)". -/
theorem momentum_moves_current_counterexample :
    (animate 600 momentumState).state.zoomCenterX ≠
      momentumState.state.zoomCenterX := by
  have h := (updatePhysics_momentum_active (2/125) 600 momentumState rfl
    (by norm_num [momentumState, manhattanLength])).2.2.1
  rw [animate, h]
  norm_num [momentumState, initialCamera, smoothedSize]

/-- C4 (amended): while not dragging and the velocity's manhattan length
exceeds `0.1`, each tick applies the velocity (scaled by the smoothed
`current.size / height`) to both the target center and the current center,
multiplies the velocity by `0.92`, and resets it to exactly `(0, 0)` when
the decayed manhattan length falls strictly below `0.1`; within a bounded
number of ticks the velocity's manhattan length is at most `0.1`, after
which the velocity and the target center never change again. -/
theorem momentum_decay (height : ℚ) (s : WidgetState)
    (hd : s.isDragging = false)
    (hm : 1/10 < manhattanLength s.velocityX s.velocityY) :
    ((animate height s).targetState.zoomCenterX =
        s.targetState.zoomCenterX - s.velocityX * (smoothedSize s / height) ∧
      (animate height s).targetState.zoomCenterY =
        s.targetState.zoomCenterY + s.velocityY * (smoothedSize s / height) ∧
      (animate height s).state.zoomCenterX =
        (s.state.zoomCenterX +
            (s.targetState.zoomCenterX - s.state.zoomCenterX) * (2/25)) -
          s.velocityX * (smoothedSize s / height) ∧
      (animate height s).state.zoomCenterY =
        (s.state.zoomCenterY +
            (s.targetState.zoomCenterY - s.state.zoomCenterY) * (2/25)) +
          s.velocityY * (smoothedSize s / height)) ∧
    ((1/10 ≤ manhattanLength (s.velocityX * (23/25)) (s.velocityY * (23/25)) →
        (animate height s).velocityX = s.velocityX * (23/25) ∧
          (animate height s).velocityY = s.velocityY * (23/25)) ∧
      (manhattanLength (s.velocityX * (23/25)) (s.velocityY * (23/25)) < 1/10 →
        (animate height s).velocityX = 0 ∧ (animate height s).velocityY = 0)) ∧
    (∃ N : ℕ,
      manhattanLength (animateN height N s).velocityX
          (animateN height N s).velocityY ≤ 1/10 ∧
      ∀ n : ℕ, N ≤ n →
        (animateN height n s).velocityX = (animateN height N s).velocityX ∧
          (animateN height n s).velocityY = (animateN height N s).velocityY ∧
          (animateN height n s).targetState.zoomCenterX =
            (animateN height N s).targetState.zoomCenterX ∧
          (animateN height n s).targetState.zoomCenterY =
            (animateN height N s).targetState.zoomCenterY) := by
  obtain ⟨h1, h2, h3, h4, h5, h6⟩ :=
    updatePhysics_momentum_active (2/125) height s hd hm
  simp only [animate]
  refine ⟨⟨h1, h2, h3, h4⟩, ⟨?_, ?_⟩, ?_⟩
  · intro hge
    exact ⟨by rw [h5, if_neg (not_lt.mpr hge)], by rw [h6, if_neg (not_lt.mpr hge)]⟩
  · intro hlt
    exact ⟨by rw [h5, if_pos hlt], by rw [h6, if_pos hlt]⟩
  · obtain ⟨N, hN⟩ := animateN_eventually_small height s hd
    refine ⟨N, hN, fun n hn => ?_⟩
    obtain ⟨ha, hb, hc⟩ := animateN_frozen_after height s N hN n hn
    exact ⟨ha, hb, by rw [hc], by rw [hc]⟩

theorem momentum_decay_witness :
    (momentumState.isDragging = false ∧
      1/10 < manhattanLength momentumState.velocityX momentumState.velocityY) ∧
    (((animate 600 momentumState).targetState.zoomCenterX =
        momentumState.targetState.zoomCenterX -
          momentumState.velocityX * (smoothedSize momentumState / 600) ∧
      (animate 600 momentumState).targetState.zoomCenterY =
        momentumState.targetState.zoomCenterY +
          momentumState.velocityY * (smoothedSize momentumState / 600) ∧
      (animate 600 momentumState).state.zoomCenterX =
        (momentumState.state.zoomCenterX +
            (momentumState.targetState.zoomCenterX -
              momentumState.state.zoomCenterX) * (2/25)) -
          momentumState.velocityX * (smoothedSize momentumState / 600) ∧
      (animate 600 momentumState).state.zoomCenterY =
        (momentumState.state.zoomCenterY +
            (momentumState.targetState.zoomCenterY -
              momentumState.state.zoomCenterY) * (2/25)) +
          momentumState.velocityY * (smoothedSize momentumState / 600)) ∧
    ((1/10 ≤ manhattanLength (momentumState.velocityX * (23/25))
          (momentumState.velocityY * (23/25)) →
        (animate 600 momentumState).velocityX =
            momentumState.velocityX * (23/25) ∧
          (animate 600 momentumState).velocityY =
            momentumState.velocityY * (23/25)) ∧
      (manhattanLength (momentumState.velocityX * (23/25))
          (momentumState.velocityY * (23/25)) < 1/10 →
        (animate 600 momentumState).velocityX = 0 ∧
          (animate 600 momentumState).velocityY = 0)) ∧
    (∃ N : ℕ,
      manhattanLength (animateN 600 N momentumState).velocityX
          (animateN 600 N momentumState).velocityY ≤ 1/10 ∧
      ∀ n : ℕ, N ≤ n →
        (animateN 600 n momentumState).velocityX =
            (animateN 600 N momentumState).velocityX ∧
          (animateN 600 n momentumState).velocityY =
            (animateN 600 N momentumState).velocityY ∧
          (animateN 600 n momentumState).targetState.zoomCenterX =
            (animateN 600 N momentumState).targetState.zoomCenterX ∧
          (animateN 600 n momentumState).targetState.zoomCenterY =
            (animateN 600 N momentumState).targetState.zoomCenterY)) :=
  ⟨⟨rfl, by norm_num [momentumState, manhattanLength]⟩,
    momentum_decay 600 momentumState rfl
      (by norm_num [momentumState, manhattanLength])⟩

/-- C5 (counterexample): convergence over a wall-clock interval is not
independent of its subdivision into ticks: two ticks of `0.008 s` move the
current size further than one tick of `0.016 s`, because the smoothing
factor is the constant `0.08` per tick and the `deltaTime` argument is
ignored. -/
theorem fixed_timestep_counterexample :
    (updatePhysics (1/125) 600 (updatePhysics (1/125) 600 splitTickState)).state.zoomSize ≠
      (updatePhysics (2/125) 600 splitTickState).state.zoomSize := by
  rw [updatePhysics_state_zoomSize, updatePhysics_state_zoomSize,
    updatePhysics_targetState_zoomSize, updatePhysics_state_zoomSize]
  norm_num [splitTickState]

/-- C5 (amended): the physics step ignores its `deltaTime` argument
entirely, `animate` always advances it with the fixed nominal step
`0.016`, and the smoothing step uses the constant interpolation factor
`0.08` per tick — the factor is not computed from measured elapsed time
and no clamping of elapsed gaps exists. -/
theorem physics_ignores_deltaTime (dt dt' height : ℚ) (s : WidgetState) :
    updatePhysics dt height s = updatePhysics dt' height s ∧
      animate height s = updatePhysics (2/125) height s ∧
      (updatePhysics dt height s).state.zoomSize =
        s.state.zoomSize + (s.targetState.zoomSize - s.state.zoomSize) * (2/25) :=
  ⟨rfl, rfl, updatePhysics_state_zoomSize dt height s⟩

/-- C6 (counterexample): a pointer-move input event during a drag writes
the current (rendered) half of the state, not only the target half. -/
theorem move_event_writes_current_counterexample :
    (mouseMoveEvent 430 290 600 dragScenarioState).state.zoomCenterX ≠
      dragScenarioState.state.zoomCenterX := by
  norm_num [mouseMoveEvent, dragScenarioState, initialCamera]

/-- C6 (amended): press, release and scroll events never write the current
half of the state — in any state, dragging or idle; the move handler is
the exception: while dragging it writes both halves, keeping the target
center equal to the new current center and leaving both sizes unchanged
(and while idle it is a no-op). -/
theorem input_events_target_only_except_drag (button : MouseButton)
    (angleDeltaY : ℤ) (posX posY width height : ℚ) (s : WidgetState) :
    (mousePressEvent button posX posY s).state = s.state ∧
      (mouseReleaseEvent button s).state = s.state ∧
      (wheelEvent angleDeltaY posX posY width height s).state = s.state ∧
      (s.isDragging = true →
        (mouseMoveEvent posX posY height s).targetState.zoomCenterX =
            (mouseMoveEvent posX posY height s).state.zoomCenterX ∧
          (mouseMoveEvent posX posY height s).targetState.zoomCenterY =
            (mouseMoveEvent posX posY height s).state.zoomCenterY) ∧
      (s.isDragging = false → mouseMoveEvent posX posY height s = s) ∧
      (mouseMoveEvent posX posY height s).state.zoomSize = s.state.zoomSize ∧
      (mouseMoveEvent posX posY height s).targetState.zoomSize =
        s.targetState.zoomSize := by
  refine ⟨mousePressEvent_state button posX posY s,
    mouseReleaseEvent_state button s,
    wheelEvent_state angleDeltaY posX posY width height s,
    fun hd => ?_, fun hid => ?_,
    mouseMoveEvent_state_zoomSize posX posY height s,
    mouseMoveEvent_targetState_zoomSize posX posY height s⟩
  · constructor <;> simp [mouseMoveEvent, hd]
  · simp [mouseMoveEvent, hid]

theorem input_events_target_only_except_drag_witness :
    (mousePressEvent MouseButton.right 430 290 dragScenarioState).state =
        dragScenarioState.state ∧
      (mouseReleaseEvent MouseButton.right dragScenarioState).state =
        dragScenarioState.state ∧
      (wheelEvent 120 430 290 800 600 dragScenarioState).state =
        dragScenarioState.state ∧
      (dragScenarioState.isDragging = true →
        (mouseMoveEvent 430 290 600 dragScenarioState).targetState.zoomCenterX =
            (mouseMoveEvent 430 290 600 dragScenarioState).state.zoomCenterX ∧
          (mouseMoveEvent 430 290 600 dragScenarioState).targetState.zoomCenterY =
            (mouseMoveEvent 430 290 600 dragScenarioState).state.zoomCenterY) ∧
      (dragScenarioState.isDragging = false →
        mouseMoveEvent 430 290 600 dragScenarioState = dragScenarioState) ∧
      (mouseMoveEvent 430 290 600 dragScenarioState).state.zoomSize =
        dragScenarioState.state.zoomSize ∧
      (mouseMoveEvent 430 290 600 dragScenarioState).targetState.zoomSize =
        dragScenarioState.targetState.zoomSize :=
  input_events_target_only_except_drag MouseButton.right 120 430 290 800 600
    dragScenarioState

/-- C7 (counterexample): in the §8 drag scenario (pixel delta `(30, -10)`
on an 800×600 viewport with size `3.0`), the target center's y-coordinate
does not increase by `0.05`: the handler adds `delta.y * scale` with
`delta.y = -10`, so it decreases. -/
theorem drag_scenario_centerY_counterexample :
    (mouseMoveEvent 430 290 600 dragScenarioState).targetState.zoomCenterY ≠
      dragScenarioState.targetState.zoomCenterY + 1/20 := by
  norm_num [mouseMoveEvent, dragScenarioState, initialCamera]

/-- C7 (amended): the scenario drag moves `target.centerX` down by
`30 * 3.0/600 = 0.15` and `target.centerY` down by `10 * 3.0/600 = 0.05`
(not up), with the target size unchanged. -/
theorem drag_scenario_delta :
    (mouseMoveEvent 430 290 600 dragScenarioState).targetState.zoomCenterX =
        dragScenarioState.targetState.zoomCenterX - 3/20 ∧
      (mouseMoveEvent 430 290 600 dragScenarioState).targetState.zoomCenterY =
        dragScenarioState.targetState.zoomCenterY - 1/20 ∧
      (mouseMoveEvent 430 290 600 dragScenarioState).targetState.zoomSize =
        dragScenarioState.targetState.zoomSize := by
  norm_num [mouseMoveEvent, dragScenarioState, initialCamera]

/-- C8 (counterexample): there is no zoom-out ceiling: 300 zoom-out
scrolls from the default state drive the target size past `10^8`, and a
physics tick applies no resistance — it leaves the target size exactly
where it was. -/
theorem zoom_ceiling_counterexample :
    (10:ℚ)^8 < (zoomOutN 400 300 800 600 300 initialState).targetState.zoomSize ∧
      (updatePhysics (2/125) 600
          (zoomOutN 400 300 800 600 300 initialState)).targetState.zoomSize =
        (zoomOutN 400 300 800 600 300 initialState).targetState.zoomSize := by
  constructor
  · rw [zoomOutN_targetState_zoomSize]
    norm_num [initialState, initialCamera]
  · exact updatePhysics_targetState_zoomSize _ _ _

/-- C8 (amended): no soft zoom-out limit is implemented: a physics tick
never modifies `target.size`, each zoom-out scroll multiplies it by
`27/25`, and repeated zoom-out scrolls from the default state exceed any
bound. -/
theorem no_zoom_out_ceiling (dt posX posY width height : ℚ) (s : WidgetState)
    (M : ℚ) :
    (updatePhysics dt height s).targetState.zoomSize =
        s.targetState.zoomSize ∧
      (wheelEvent (-120) posX posY width height s).targetState.zoomSize =
        (27/25) * s.targetState.zoomSize ∧
      ∃ n : ℕ, M <
        (zoomOutN posX posY width height n initialState).targetState.zoomSize := by
  refine ⟨updatePhysics_targetState_zoomSize dt height s, ?_, ?_⟩
  · rw [wheelEvent_targetState_zoomSize]
    norm_num [mul_comm]
  · obtain ⟨n, hn⟩ :=
      pow_unbounded_of_one_lt (M/3) (show (1:ℚ) < 27/25 by norm_num)
    refine ⟨n, ?_⟩
    rw [zoomOutN_targetState_zoomSize]
    have h3 : initialState.targetState.zoomSize = 3 := rfl
    rw [h3]
    linarith

/-- C9 (counterexample): an event arriving with viewport height `0` is not
dropped: a wheel event still multiplies the target size (no guard on the
degenerate dimension exists, and no clamping is performed anywhere). -/
theorem height_zero_event_not_dropped :
    (wheelEvent 120 400 300 800 0 initialState).targetState.zoomSize ≠
      initialState.targetState.zoomSize := by
  rw [wheelEvent_targetState_zoomSize]
  norm_num [initialState, initialCamera]

/-- C9 (amended): in exact arithmetic both sizes stay strictly positive
across every handler and every physics tick — not by clamping (none
exists) but because no operation can drive a positive size to zero; events
with degenerate or non-finite inputs are not dropped. -/
theorem sizes_remain_positive (button : MouseButton) (angleDeltaY : ℤ)
    (posX posY width height dt : ℚ) (s : WidgetState)
    (hc : 0 < s.state.zoomSize) (ht : 0 < s.targetState.zoomSize) :
    (0 < (mousePressEvent button posX posY s).state.zoomSize ∧
      0 < (mousePressEvent button posX posY s).targetState.zoomSize) ∧
    (0 < (mouseMoveEvent posX posY height s).state.zoomSize ∧
      0 < (mouseMoveEvent posX posY height s).targetState.zoomSize) ∧
    (0 < (mouseReleaseEvent button s).state.zoomSize ∧
      0 < (mouseReleaseEvent button s).targetState.zoomSize) ∧
    (0 < (wheelEvent angleDeltaY posX posY width height s).state.zoomSize ∧
      0 < (wheelEvent angleDeltaY posX posY width height s).targetState.zoomSize) ∧
    (0 < (updatePhysics dt height s).state.zoomSize ∧
      0 < (updatePhysics dt height s).targetState.zoomSize) := by
  refine ⟨⟨?_, ?_⟩, ⟨?_, ?_⟩, ⟨?_, ?_⟩, ⟨?_, ?_⟩, ⟨?_, ?_⟩⟩
  · rw [mousePressEvent_state]; exact hc
  · rw [mousePressEvent_targetState_zoomSize]; exact ht
  · rw [mouseMoveEvent_state_zoomSize]; exact hc
  · rw [mouseMoveEvent_targetState_zoomSize]; exact ht
  · rw [mouseReleaseEvent_state]; exact hc
  · rw [mouseReleaseEvent_targetState]; exact ht
  · rw [wheelEvent_state]; exact hc
  · rw [wheelEvent_targetState_zoomSize]
    split_ifs <;> exact mul_pos ht (by norm_num)
  · rw [updatePhysics_state_zoomSize]; nlinarith
  · rw [updatePhysics_targetState_zoomSize]; exact ht

theorem sizes_remain_positive_witness :
    ((0:ℚ) < initialState.state.zoomSize ∧
        (0:ℚ) < initialState.targetState.zoomSize) ∧
      ((0 < (mousePressEvent MouseButton.left 400 300 initialState).state.zoomSize ∧
        0 < (mousePressEvent MouseButton.left 400 300 initialState).targetState.zoomSize) ∧
      (0 < (mouseMoveEvent 400 300 600 initialState).state.zoomSize ∧
        0 < (mouseMoveEvent 400 300 600 initialState).targetState.zoomSize) ∧
      (0 < (mouseReleaseEvent MouseButton.left initialState).state.zoomSize ∧
        0 < (mouseReleaseEvent MouseButton.left initialState).targetState.zoomSize) ∧
      (0 < (wheelEvent (-120) 400 300 800 600 initialState).state.zoomSize ∧
        0 < (wheelEvent (-120) 400 300 800 600 initialState).targetState.zoomSize) ∧
      (0 < (updatePhysics (2/125) 600 initialState).state.zoomSize ∧
        0 < (updatePhysics (2/125) 600 initialState).targetState.zoomSize)) :=
  ⟨⟨by norm_num [initialState, initialCamera], by norm_num [initialState, initialCamera]⟩,
    sizes_remain_positive MouseButton.left (-120) 400 300 800 600 (2/125) initialState
      (by norm_num [initialState, initialCamera])
      (by norm_num [initialState, initialCamera])⟩

/-- C10: a mouse press or release whose button is not the left button
leaves the entire widget state unchanged. -/
theorem non_left_button_noop (button : MouseButton) (posX posY : ℚ)
    (s : WidgetState) (h : button ≠ MouseButton.left) :
    mousePressEvent button posX posY s = s ∧ mouseReleaseEvent button s = s := by
  constructor
  · unfold mousePressEvent; rw [if_neg h]
  · unfold mouseReleaseEvent; rw [if_neg h]

theorem non_left_button_noop_witness :
    MouseButton.right ≠ MouseButton.left ∧
      (mousePressEvent MouseButton.right 10 20 initialState = initialState ∧
        mouseReleaseEvent MouseButton.right initialState = initialState) :=
  ⟨by decide, non_left_button_noop MouseButton.right 10 20 initialState (by decide)⟩

end Fractonaut
